import Mathlib

/-!
Shallow embedding of the AI-Closet server's request-authorization and
error-propagation pipeline, its database reconnection state machine, and
its database health verifier, together with theorems about the claims
made by the specification.

Sources embedded:
- auth middleware (requireAuth, requireRole, requireSelfOrAdmin)
- error types (ApiError) and the central errorHandler plus asyncHandler
- database module (pool error handler, attemptReconnection,
  verifyDatabaseHealth) in src/server/app.ts
-/

namespace AICloset

/-! ## A small JSON value model (the serialized view of response bodies)

JSON.stringify drops object entries whose value is undefined; absent
entries are therefore simply not present in this model. -/

inductive Jsonish where
  | null : Jsonish
  | bool (b : Bool) : Jsonish
  | num (n : Int) : Jsonish
  | str (s : String) : Jsonish
  | arr (elems : List Jsonish) : Jsonish
  | obj (fields : List (String × Jsonish)) : Jsonish

/-- Escape a string the way JSON.stringify does for the characters that
can occur in this codebase's messages (quote, backslash, common control
characters). -/
def jsonEscapeChar (c : Char) : String :=
  if c = '"' then "\\\""
  else if c = '\\' then "\\\\"
  else if c = '\n' then "\\n"
  else if c = '\t' then "\\t"
  else if c = '\r' then "\\r"
  else String.singleton c

def jsonEscape (s : String) : String :=
  String.join (s.toList.map jsonEscapeChar)

def jsonQuote (s : String) : String :=
  "\"" ++ jsonEscape s ++ "\""

mutual

/-- Render a JSON value to its serialized text, as JSON.stringify would. -/
def Jsonish.render : Jsonish → String
  | .null => "null"
  | .bool b => cond b "true" "false"
  | .num n => toString n
  | .str s => jsonQuote s
  | .arr elems => "[" ++ Jsonish.renderElems elems ++ "]"
  | .obj fields => "\x7b" ++ Jsonish.renderFields fields ++ "\x7d"

def Jsonish.renderElems : List Jsonish → String
  | [] => ""
  | [x] => Jsonish.render x
  | x :: xs => Jsonish.render x ++ "," ++ Jsonish.renderElems xs

def Jsonish.renderFields : List (String × Jsonish) → String
  | [] => ""
  | [(k, v)] => jsonQuote k ++ ":" ++ Jsonish.render v
  | (k, v) :: fs => jsonQuote k ++ ":" ++ Jsonish.render v ++ "," ++ Jsonish.renderFields fs

end

/-! ## Error types (error-types.ts) -/

/-- ApiError: message, HTTP status code, optional error code, optional
details payload.  An omitted constructor argument is `none`
(JavaScript `undefined`). -/
structure ApiError where
  message : String
  statusCode : Nat
  errorCode : Option String
  details : Option Jsonish

/-- The error values that can reach the central handler: a typed
ApiError, a Zod validation error carrying its formatted field errors, or
any other error carrying only a message. -/
inductive AppError where
  | api (e : ApiError) : AppError
  | zod (formatted : Jsonish) : AppError
  | other (message : String) : AppError

/-! ## Central error handler (error-handler.ts) -/

/-- The JavaScript expression `err.errorCode || 'ERROR_' + err.statusCode`:
an absent or empty (falsy) errorCode defaults to ERROR_ followed by the
status code. -/
def defaultedCode (errorCode : Option String) (statusCode : Nat) : String :=
  match errorCode with
  | none => "ERROR_" ++ toString statusCode
  | some s => if s = "" then "ERROR_" ++ toString statusCode else s

/-- The serialized entry list for an optional details payload: an
undefined details value is dropped by JSON.stringify. -/
def detailsEntry : Option Jsonish → List (String × Jsonish)
  | none => []
  | some d => [("details", d)]

/-- errorHandler: classifies the error in priority order (ApiError, then
ZodError, then anything else) and produces the HTTP status code and the
serialized response body.  Logging is observational only and is not
modelled.  `production` is whether NODE_ENV is 'production'. -/
def errorHandler (production : Bool) (err : AppError) : Nat × Jsonish :=
  match err with
  | .api e =>
      (e.statusCode, .obj [("error", .obj
        ([("message", .str e.message),
          ("code", .str (defaultedCode e.errorCode e.statusCode))]
         ++ detailsEntry e.details))])
  | .zod formatted =>
      (400, .obj [("error", .obj
        [("message", .str "Validation error"),
         ("code", .str "VALIDATION_ERROR"),
         ("details", formatted)])])
  | .other m =>
      (500, .obj [("error", .obj
        [("message", .str (if production then "An unexpected error occurred" else m)),
         ("code", .str "INTERNAL_SERVER_ERROR")])])

/-! ## Auth middleware (auth-middleware.ts) -/

inductive UserRole where
  | user : UserRole
  | admin : UserRole
deriving DecidableEq

/-- The string value of the UserRole enum member. -/
def UserRole.val : UserRole → String
  | .user => "user"
  | .admin => "admin"

/-- A session user: id plus role, the role possibly absent (falsy). -/
structure User where
  id : Int
  role : Option String
deriving DecidableEq

/-- The request state the middleware observes: whether the
req.isAuthenticated method exists and what it returns, and req.user.
`isAuthenticated = none` models the method being absent. -/
structure Req where
  isAuthenticated : Option Bool
  user : Option User

/-- Outcome of a middleware gate: proceed to the next handler, or fail
by passing an error to next(error). -/
inductive Next where
  | proceed : Next
  | fail (e : ApiError) : Next

/-- The JavaScript guard `!req.isAuthenticated || !req.isAuthenticated()`:
short-circuits, so the method is never called when absent. -/
def missingOrFalse (m : Option Bool) : Bool :=
  match m with
  | none => true
  | some b => !b

def loginRequiredError : ApiError :=
  ⟨"You must be logged in to access this resource", 401, none, none⟩

def permissionError : ApiError :=
  ⟨"You do not have permission to access this resource", 403, none, none⟩

/-- requireAuth middleware. -/
def requireAuth (req : Req) : Next :=
  if missingOrFalse req.isAuthenticated then .fail loginRequiredError
  else .proceed

/-- The JavaScript expression `req.user.role || UserRole.USER`: a falsy
(absent or empty) role becomes the string value of UserRole.USER. -/
def effectiveRole (role : Option String) : String :=
  match role with
  | none => UserRole.user.val
  | some s => if s = "" then UserRole.user.val else s

/-- requireRole middleware.  The single-role form is the singleton list
(the source wraps a non-array argument into an array). -/
def requireRole (role : List UserRole) (req : Req) : Next :=
  if missingOrFalse req.isAuthenticated then .fail loginRequiredError
  else
    match req.user with
    | none => .fail loginRequiredError
    | some u =>
      let userRole := effectiveRole u.role
      let requiredRoles := role.map UserRole.val
      if !(requiredRoles.contains userRole) then .fail permissionError
      else .proceed

/-- requireSelfOrAdmin middleware. -/
def requireSelfOrAdmin (getUserId : Req → Int) (req : Req) : Next :=
  if missingOrFalse req.isAuthenticated then .fail loginRequiredError
  else
    match req.user with
    | none => .fail loginRequiredError
    | some u =>
      let resourceUserId := getUserId req
      let userRole := effectiveRole u.role
      if u.id != resourceUserId && userRole != UserRole.admin.val then
        .fail permissionError
      else .proceed

/-! ## Route pipeline -/

/-- Running a gated route: the downstream handler runs only when the
gate proceeds; otherwise the error the gate passed to next() reaches the
central error handler. -/
def runGated (production : Bool) (gate : Req → Next)
    (handler : Req → Nat × Jsonish) (req : Req) : Nat × Jsonish :=
  match gate req with
  | .proceed => handler req
  | .fail e => errorHandler production (.api e)

/-- What a raw route handler body can do: return a response, throw
synchronously, or return a promise that rejects. -/
inductive RawOutcome where
  | ok (response : Nat × Jsonish) : RawOutcome
  | syncThrow (e : AppError) : RawOutcome
  | asyncReject (e : AppError) : RawOutcome

/-- Outcome of a wrapped handler as the framework sees it: a response,
or an error forwarded to next(error). -/
inductive HandlerOutcome where
  | ok (response : Nat × Jsonish) : HandlerOutcome
  | nextErr (e : AppError) : HandlerOutcome

/-- asyncHandler: Promise.resolve(fn(req,res,next)).catch(next).  A
rejected promise is forwarded to next; a synchronous throw escapes the
wrapper and the framework routes it to next as well. -/
def asyncHandler (fn : Req → RawOutcome) (req : Req) : HandlerOutcome :=
  match fn req with
  | .ok r => .ok r
  | .syncThrow e => .nextErr e
  | .asyncReject e => .nextErr e

/-- Running a (wrapped) route to a response: errors forwarded to next()
reach the central error handler. -/
def runRoute (production : Bool) (h : Req → HandlerOutcome) (req : Req) :
    Nat × Jsonish :=
  match h req with
  | .ok r => r
  | .nextErr e => errorHandler production e

/-! ## Database reconnection state machine (src/server/app.ts)

The module state is the pair of variables isReconnecting and
reconnectAttempts.  An execution of attemptReconnection is driven by the
outcome of its probe query (connect + SELECT 1): it first sets
isReconnecting and increments the counter, then either resets on
success, schedules a retry timer on failure below the maximum, or gives
up.  The Bool it returns records whether a retry timer was scheduled. -/

structure ReconnState where
  isReconnecting : Bool
  reconnectAttempts : Nat
deriving DecidableEq

def MAX_RECONNECT_ATTEMPTS : Nat := 10

/-- One execution of attemptReconnection, given the probe outcome.
Returns the new state and whether a retry timer was scheduled. -/
def attemptReconnection (s : ReconnState) (probeOk : Bool) :
    ReconnState × Bool :=
  let a := s.reconnectAttempts + 1
  if probeOk then
    (⟨false, 0⟩, false)
  else if a < MAX_RECONNECT_ATTEMPTS then
    (⟨true, a⟩, true)
  else
    (⟨false, a⟩, false)

/-- Run the chain of attemptReconnection executions started by one call,
following each scheduled retry timer, consuming one probe outcome per
attempt.  The Bool of the result is whether a further attempt is still
scheduled after the supplied outcomes are exhausted. -/
def runAttempts : ReconnState → List Bool → ReconnState × Bool
  | s, [] => (s, true)
  | s, p :: ps =>
    let r := attemptReconnection s p
    if r.2 then runAttempts r.1 ps else r

/-- The pool error-event handler.  In local mode it only logs.
Otherwise it starts a reconnection sequence unless one is already in
flight, in which case the event is ignored. -/
def poolError (isLocal : Bool) (s : ReconnState) (probes : List Bool) :
    ReconnState × Bool :=
  if isLocal then (s, false)
  else if !s.isReconnecting then runAttempts s probes
  else (s, false)

/-! ## Database health verifier (src/server/app.ts) -/

def requiredHealthTables : List String :=
  ["users", "wardrobe_items", "outfits", "inspirations",
   "weather_preferences", "mood_preferences"]

structure PoolStatus where
  totalCount : Nat
  idleCount : Nat
  waitingCount : Nat
deriving DecidableEq

/-- The environment verifyDatabaseHealth runs against: the outcome of
testDatabaseConnection, of the catalog query listing the public tables,
and of the pool status snapshot.  Each may raise (Except.error carries
the error text). -/
structure DbEnv where
  testConnection : Except String Bool
  catalogTables : Except String (List String)
  poolStatus : Except String PoolStatus

inductive HealthDetails where
  | noDetails : HealthDetails
  | missing (missingTables : List String) : HealthDetails
  | full (tables : List String) (poolStatus : PoolStatus) : HealthDetails
  | errorDetail (error : String) : HealthDetails
deriving DecidableEq

structure HealthReport where
  healthy : Bool
  message : String
  details : HealthDetails
deriving DecidableEq

/-- The missingTables computation:
tables.filter(table => !existingTables.includes(table)). -/
def missingOf (existingTables : List String) : List String :=
  requiredHealthTables.filter (fun t => !(existingTables.contains t))

/-- The body of verifyDatabaseHealth's try block; an Except.error is an
exception escaping the block, and each await on a raising operation
propagates it. -/
def verifyDatabaseHealthAux (env : DbEnv) : Except String HealthReport :=
  match env.testConnection with
  | .error e => .error e
  | .ok ok =>
    if !ok then
      .ok ⟨false, "Database connection failed", .noDetails⟩
    else
      match env.catalogTables with
      | .error e => .error e
      | .ok existingTables =>
        let missingTables := missingOf existingTables
        if missingTables.length > 0 then
          .ok ⟨false, "Database schema incomplete", .missing missingTables⟩
        else
          match env.poolStatus with
          | .error e => .error e
          | .ok ps =>
            .ok ⟨true, "Database connection and schema verified",
                 .full existingTables ps⟩

/-- verifyDatabaseHealth: the try block with its catch-all, which turns
any internal exception into an unhealthy report carrying the error
text. -/
def verifyDatabaseHealth (env : DbEnv) : HealthReport :=
  match verifyDatabaseHealthAux env with
  | .ok r => r
  | .error e => ⟨false, "Database health check failed", .errorDetail e⟩

/-! ## Theorems -/

/-- The effective role equals the admin string exactly when the stored
role is the admin string (absent and empty roles normalize to user). -/
theorem effectiveRole_eq_admin_iff (r : Option String) :
    effectiveRole r = "admin" ↔ r = some "admin" := by
  cases r with
  | none => decide
  | some s =>
    by_cases hs : s = ""
    · subst hs; decide
    · simp [effectiveRole, hs]

/-- Claim C1: a request without a valid session-derived identity is
rejected by requireAuth with the 401 ApiError, the downstream handler
never runs (the response does not depend on it), and the error pipeline
produces status 401 with exactly the documented body, the code defaulted
to ERROR_401. -/
theorem requireAuth_rejects_unauthenticated (production : Bool)
    (handler : Req → Nat × Jsonish) (req : Req)
    (h : req.isAuthenticated ≠ some true) :
    requireAuth req = .fail loginRequiredError ∧
    runGated production requireAuth handler req =
      (401, .obj [("error", .obj
        [("message", .str "You must be logged in to access this resource"),
         ("code", .str "ERROR_401")])]) ∧
    (runGated production requireAuth handler req).2.render =
      "\x7b\"error\":\x7b\"message\":\"You must be logged in to access this resource\",\"code\":\"ERROR_401\"\x7d\x7d" := by
  have hm : missingOrFalse req.isAuthenticated = true := by
    cases hia : req.isAuthenticated with
    | none => rfl
    | some b =>
      cases b with
      | false => rfl
      | true => exact absurd hia h
  have h1 : requireAuth req = .fail loginRequiredError := by
    simp [requireAuth, hm]
  have h2 : runGated production requireAuth handler req =
      (401, .obj [("error", .obj
        [("message", .str "You must be logged in to access this resource"),
         ("code", .str "ERROR_401")])]) := by
    simp only [runGated, h1]
    rfl
  exact ⟨h1, h2, by rw [h2]; rfl⟩

/-- Claim C1 witness: the concrete request with no session machinery at
all is rejected with the documented response. -/
theorem requireAuth_rejects_unauthenticated_witness :
    requireAuth ⟨none, none⟩ = .fail loginRequiredError ∧
    runGated false requireAuth (fun _ => (200, .null)) ⟨none, none⟩ =
      (401, .obj [("error", .obj
        [("message", .str "You must be logged in to access this resource"),
         ("code", .str "ERROR_401")])]) :=
  ⟨(requireAuth_rejects_unauthenticated false (fun _ => (200, .null))
      ⟨none, none⟩ (by decide)).1,
   (requireAuth_rejects_unauthenticated false (fun _ => (200, .null))
      ⟨none, none⟩ (by decide)).2.1⟩

/-- Claim C2: for an authenticated identity, requireSelfOrAdmin fails
with the 403 ApiError exactly when the identity neither owns the
resource nor has the admin role, and proceeds when it owns the resource
or has the admin role (for admins, regardless of id match). -/
theorem requireSelfOrAdmin_cases (getUserId : Req → Int) (req : Req)
    (u : User) (hauth : req.isAuthenticated = some true)
    (huser : req.user = some u) :
    (u.id ≠ getUserId req → u.role ≠ some "admin" →
       requireSelfOrAdmin getUserId req = .fail permissionError) ∧
    (u.id = getUserId req ∨ u.role = some "admin" →
       requireSelfOrAdmin getUserId req = .proceed) := by
  have hr : requireSelfOrAdmin getUserId req =
      (if u.id != getUserId req && effectiveRole u.role != UserRole.admin.val
       then .fail permissionError else .proceed) := by
    simp [requireSelfOrAdmin, hauth, huser, missingOrFalse]
  constructor
  · intro hne hrole
    have h1 : (u.id != getUserId req) = true := bne_iff_ne.mpr hne
    have h2 : (effectiveRole u.role != UserRole.admin.val) = true := by
      refine bne_iff_ne.mpr ?_
      intro hc
      exact hrole ((effectiveRole_eq_admin_iff u.role).mp hc)
    rw [hr, h1, h2]
    rfl
  · intro hor
    rw [hr]
    rcases hor with heq | hadmin
    · simp [heq]
    · have hadm : effectiveRole u.role = "admin" :=
        (effectiveRole_eq_admin_iff u.role).mpr hadmin
      simp [hadm, UserRole.val]

/-- Claim C2 witness: an owner with the plain user role passes through,
and a non-owner with the plain user role is rejected with 403. -/
theorem requireSelfOrAdmin_cases_witness :
    requireSelfOrAdmin (fun _ => 5) ⟨some true, some ⟨5, some "user"⟩⟩ =
      .proceed ∧
    requireSelfOrAdmin (fun _ => 7) ⟨some true, some ⟨5, some "user"⟩⟩ =
      .fail permissionError :=
  ⟨(requireSelfOrAdmin_cases (fun _ => 5) ⟨some true, some ⟨5, some "user"⟩⟩
      ⟨5, some "user"⟩ rfl rfl).2 (Or.inl rfl),
   (requireSelfOrAdmin_cases (fun _ => 7) ⟨some true, some ⟨5, some "user"⟩⟩
      ⟨5, some "user"⟩ rfl rfl).1 (by decide) (by decide)⟩

/-- Claim C8 counterexample: an authenticated identity with the unknown
role "moderator" is NOT treated as role user by requireRole: with the
allowed set consisting of user alone, the plain user passes through but
the moderator is rejected with the 403 ApiError. -/
theorem requireRole_unknown_role_counterexample :
    requireRole [UserRole.user] ⟨some true, some ⟨1, some "moderator"⟩⟩ =
      .fail permissionError ∧
    requireRole [UserRole.user] ⟨some true, some ⟨1, some "user"⟩⟩ =
      .proceed :=
  ⟨rfl, rfl⟩

/-- Claim C8 amended: only a falsy (absent or empty) role is normalized
to user; an authenticated identity whose role is any other string
outside the enumeration is rejected with 403 Forbidden by requireRole
regardless of the allowed set. -/
theorem requireRole_unknown_role_amended (role : List UserRole) (req : Req)
    (u : User) (s : String) (hauth : req.isAuthenticated = some true) :
    (req.user = some u → (u.role = none ∨ u.role = some "") →
       requireRole role req =
         requireRole role ⟨req.isAuthenticated, some ⟨u.id, some "user"⟩⟩) ∧
    (req.user = some u → u.role = some s → s ≠ "" → s ≠ "user" →
       s ≠ "admin" →
       requireRole role req = .fail permissionError) := by
  constructor
  · intro huser hrole
    have he : effectiveRole u.role = "user" := by
      rcases hrole with h | h <;> simp [h, effectiveRole, UserRole.val]
    have he2 : effectiveRole (some "user") = "user" := rfl
    simp [requireRole, hauth, huser, missingOrFalse, he, he2]
  · intro huser hrole hne hnu hna
    have he : effectiveRole u.role = s := by
      simp [hrole, effectiveRole, hne]
    have hmem : s ∉ role.map UserRole.val := by
      intro hm
      rcases List.mem_map.mp hm with ⟨r, _, hval⟩
      cases r with
      | user => exact hnu hval.symm
      | admin => exact hna hval.symm
    simp [requireRole, hauth, huser, missingOrFalse, he]
    intro x hx heq
    exact hmem (List.mem_map.mpr ⟨x, hx, heq⟩)

/-- Claim C8 amended witness: a falsy role behaves as user, and a
moderator is rejected even when both user and admin are allowed. -/
theorem requireRole_unknown_role_amended_witness :
    requireRole [UserRole.user] ⟨some true, some ⟨2, none⟩⟩ =
      requireRole [UserRole.user] ⟨some true, some ⟨2, some "user"⟩⟩ ∧
    requireRole [UserRole.admin, UserRole.user]
        ⟨some true, some ⟨3, some "moderator"⟩⟩ =
      .fail permissionError :=
  ⟨(requireRole_unknown_role_amended [UserRole.user]
      ⟨some true, some ⟨2, none⟩⟩ ⟨2, none⟩ "x" rfl).1 rfl (Or.inl rfl),
   (requireRole_unknown_role_amended [UserRole.admin, UserRole.user]
      ⟨some true, some ⟨3, some "moderator"⟩⟩ ⟨3, some "moderator"⟩
      "moderator" rfl).2 rfl rfl (by decide) (by decide) (by decide)⟩

/-- Claim C10: when the req.isAuthenticated method is absent, each of
the three gates signals the 401 ApiError through the continuation (the
short-circuiting guard checks the method before calling it, so no gate
gets stuck). -/
theorem gates_total_without_isAuthenticated (role : List UserRole)
    (getUserId : Req → Int) (req : Req)
    (h : req.isAuthenticated = none) :
    requireAuth req = .fail loginRequiredError ∧
    requireRole role req = .fail loginRequiredError ∧
    requireSelfOrAdmin getUserId req = .fail loginRequiredError := by
  refine ⟨?_, ?_, ?_⟩ <;>
    simp [requireAuth, requireRole, requireSelfOrAdmin, missingOrFalse, h]

/-- Claim C10 witness: a concrete request with no isAuthenticated method
(even one carrying an admin user object) is rejected 401 by all three
gates. -/
theorem gates_total_without_isAuthenticated_witness :
    requireAuth ⟨none, some ⟨1, some "admin"⟩⟩ = .fail loginRequiredError ∧
    requireRole [UserRole.admin] ⟨none, some ⟨1, some "admin"⟩⟩ =
      .fail loginRequiredError ∧
    requireSelfOrAdmin (fun _ => 1) ⟨none, some ⟨1, some "admin"⟩⟩ =
      .fail loginRequiredError :=
  gates_total_without_isAuthenticated [UserRole.admin] (fun _ => 1)
    ⟨none, some ⟨1, some "admin"⟩⟩ rfl

/-- Claim C7: the central errorHandler classifies every error into
exactly one of three kinds.  A typed ApiError gets its exact status code
and the error body with the code defaulted to ERROR_ plus the status
code when unset; a Zod error gets 400 with VALIDATION_ERROR and the
formatted field errors; any other error gets 500 with
INTERNAL_SERVER_ERROR and the original message outside production but
generic text in production. -/
theorem errorHandler_classification (production : Bool) (e : ApiError)
    (formatted : Jsonish) (m : String) :
    errorHandler production (.api e) =
      (e.statusCode, .obj [("error", .obj
        ([("message", .str e.message),
          ("code", .str (defaultedCode e.errorCode e.statusCode))]
         ++ detailsEntry e.details))]) ∧
    (∀ sc : Nat, defaultedCode none sc = "ERROR_" ++ toString sc) ∧
    errorHandler production (.zod formatted) =
      (400, .obj [("error", .obj
        [("message", .str "Validation error"),
         ("code", .str "VALIDATION_ERROR"),
         ("details", formatted)])]) ∧
    errorHandler false (.other m) =
      (500, .obj [("error", .obj
        [("message", .str m),
         ("code", .str "INTERNAL_SERVER_ERROR")])]) ∧
    errorHandler true (.other m) =
      (500, .obj [("error", .obj
        [("message", .str "An unexpected error occurred"),
         ("code", .str "INTERNAL_SERVER_ERROR")])]) :=
  ⟨rfl, fun _ => rfl, rfl, rfl, rfl⟩

/-- Claim C9: delivering an error to the central handler directly and
delivering it through the asyncHandler wrapper around a handler whose
promise rejects with that error give the same status code and a
byte-identical serialized body. -/
theorem asyncHandler_direct_equivalence (production : Bool)
    (fn : Req → RawOutcome) (req : Req) (e : AppError)
    (h : fn req = .asyncReject e) :
    runRoute production (asyncHandler fn) req = errorHandler production e ∧
    (runRoute production (asyncHandler fn) req).2.render =
      (errorHandler production e).2.render := by
  have h1 : runRoute production (asyncHandler fn) req =
      errorHandler production e := by
    simp [runRoute, asyncHandler, h]
  exact ⟨h1, by rw [h1]⟩

/-- Claim C9 witness: the two delivery paths agree for
ApiError(status 404, message X) at a concrete request. -/
theorem asyncHandler_direct_equivalence_witness :
    runRoute false
      (asyncHandler (fun _ => .asyncReject (.api ⟨"X", 404, none, none⟩)))
      ⟨none, none⟩ =
      errorHandler false (.api ⟨"X", 404, none, none⟩) :=
  (asyncHandler_direct_equivalence false
    (fun _ => .asyncReject (.api ⟨"X", 404, none, none⟩)) ⟨none, none⟩
    (.api ⟨"X", 404, none, none⟩) rfl).1

/-- Within one chain of attempts started below the maximum, the attempt
counter never exceeds MAX_RECONNECT_ATTEMPTS. -/
theorem runAttempts_counter_le (ps : List Bool) :
    ∀ s : ReconnState, s.reconnectAttempts < MAX_RECONNECT_ATTEMPTS →
      (runAttempts s ps).1.reconnectAttempts ≤ MAX_RECONNECT_ATTEMPTS := by
  induction ps with
  | nil => intro s hs; exact Nat.le_of_lt hs
  | cons p ps ih =>
    intro s hs
    cases p with
    | true =>
      show ((⟨false, 0⟩, false) : ReconnState × Bool).1.reconnectAttempts ≤
        MAX_RECONNECT_ATTEMPTS
      exact Nat.zero_le _
    | false =>
      by_cases hlt : s.reconnectAttempts + 1 < MAX_RECONNECT_ATTEMPTS
      · have hstep : runAttempts s (false :: ps) =
            runAttempts ⟨true, s.reconnectAttempts + 1⟩ ps := by
          simp [runAttempts, attemptReconnection, hlt]
        rw [hstep]
        exact ih ⟨true, s.reconnectAttempts + 1⟩ hlt
      · have hstep : runAttempts s (false :: ps) =
            (⟨false, s.reconnectAttempts + 1⟩, false) := by
          simp [runAttempts, attemptReconnection, hlt]
        rw [hstep]
        exact Nat.succ_le_of_lt hs

/-- Claim C3 counterexample: after ten consecutive probe failures from
the idle state, the machine does NOT remain in a reconnecting or
gave-up state: isReconnecting is reset to false (and the state carries
no terminal flag), and one further pool error event with a failing
probe pushes the attempt counter to 11, beyond
MAX_RECONNECT_ATTEMPTS. -/
theorem reconnection_freeze_counterexample :
    (poolError false ⟨false, 0⟩ (List.replicate 10 false)).1 =
      (⟨false, 10⟩ : ReconnState) ∧
    (poolError false ⟨false, 10⟩ [false]).1 =
      (⟨false, 11⟩ : ReconnState) ∧
    MAX_RECONNECT_ATTEMPTS < 11 := by
  decide

/-- Claim C3 amended: after MAX_RECONNECT_ATTEMPTS consecutive probe
failures from idle, no further automatic attempt is scheduled and the
attempt count stands at the maximum, and within any single reconnection
sequence started from idle the count stays in 0..MAX_RECONNECT_ATTEMPTS;
however isReconnecting is reset to false rather than left true (there is
no gave-up flag), so a later pool error event can start a fresh sequence
and carry the counter past the maximum. -/
theorem reconnection_freeze_amended (ps : List Bool) :
    poolError false ⟨false, 0⟩
        (List.replicate MAX_RECONNECT_ATTEMPTS false ++ ps) =
      ((⟨false, MAX_RECONNECT_ATTEMPTS⟩ : ReconnState), false) ∧
    (poolError false ⟨false, 0⟩ ps).1.reconnectAttempts ≤
      MAX_RECONNECT_ATTEMPTS := by
  constructor
  · rfl
  · show (runAttempts ⟨false, 0⟩ ps).1.reconnectAttempts ≤
      MAX_RECONNECT_ATTEMPTS
    exact runAttempts_counter_le ps ⟨false, 0⟩ (by decide)

/-- Claim C4: a pool error event arriving while a reconnection sequence
is in flight is ignored (the state is unchanged and nothing new is
scheduled), and an event arriving while none is in flight enters a
sequence of attempts. -/
theorem poolError_single_flight (s : ReconnState) (probes : List Bool) :
    (s.isReconnecting = true → poolError false s probes = (s, false)) ∧
    (s.isReconnecting = false →
       poolError false s probes = runAttempts s probes) := by
  constructor <;> intro h <;> simp [poolError, h]

/-- Claim C4 witness: a concrete error event during an in-flight
sequence is ignored even though its probe would have succeeded. -/
theorem poolError_single_flight_witness :
    poolError false ⟨true, 3⟩ [true] = ((⟨true, 3⟩ : ReconnState), false) :=
  (poolError_single_flight ⟨true, 3⟩ [true]).1 rfl

/-- Claim C5: verifyDatabaseHealth's case analysis.  A failed
connectivity test yields an unhealthy report with the connection-failure
message and no schema details, whatever the catalog would say; a
reachable store with required tables absent yields an unhealthy report
whose missing-table list is exactly the absent required tables; a
reachable store with all six present yields a healthy report whose table
list is a superset of the required set together with the pool status
snapshot. -/
theorem mem_missingOf (existingTables : List String) (x : String) :
    x ∈ missingOf existingTables ↔
      x ∈ requiredHealthTables ∧ x ∉ existingTables := by
  simp [missingOf, List.mem_filter]

theorem verifyDatabaseHealth_cases (env : DbEnv)
    (existingTables : List String) (ps : PoolStatus) :
    (env.testConnection = .ok false →
       verifyDatabaseHealth env =
         ⟨false, "Database connection failed", .noDetails⟩) ∧
    (env.testConnection = .ok true → env.catalogTables = .ok existingTables →
       missingOf existingTables ≠ [] →
       verifyDatabaseHealth env =
         ⟨false, "Database schema incomplete",
          .missing (missingOf existingTables)⟩ ∧
       ∀ x, x ∈ missingOf existingTables ↔
         x ∈ requiredHealthTables ∧ x ∉ existingTables) ∧
    (env.testConnection = .ok true → env.catalogTables = .ok existingTables →
       missingOf existingTables = [] →
       env.poolStatus = .ok ps →
       verifyDatabaseHealth env =
         ⟨true, "Database connection and schema verified",
          .full existingTables ps⟩ ∧
       ∀ t ∈ requiredHealthTables, t ∈ existingTables) := by
  refine ⟨?_, ?_, ?_⟩
  · intro h1
    simp [verifyDatabaseHealth, verifyDatabaseHealthAux, h1]
  · intro h1 h2 h3
    have hpos : 0 < (missingOf existingTables).length :=
      List.length_pos.mpr h3
    constructor
    · simp [verifyDatabaseHealth, verifyDatabaseHealthAux, h1, h2, hpos]
    · exact fun x => mem_missingOf existingTables x
  · intro h1 h2 h3 h4
    constructor
    · simp [verifyDatabaseHealth, verifyDatabaseHealthAux, h1, h2, h3, h4]
    · intro t ht
      by_contra hmem
      have hin : t ∈ missingOf existingTables :=
        (mem_missingOf existingTables t).mpr ⟨ht, hmem⟩
      rw [h3] at hin
      exact absurd hin (List.not_mem_nil t)

/-- Claim C5 witness: with a reachable store whose catalog lists every
required table except outfits, the report is unhealthy with the
missing-table list consisting of exactly outfits. -/
theorem verifyDatabaseHealth_cases_witness :
    verifyDatabaseHealth
      ⟨.ok true,
       .ok ["users", "wardrobe_items", "inspirations",
            "weather_preferences", "mood_preferences", "session"],
       .ok ⟨1, 1, 0⟩⟩ =
      ⟨false, "Database schema incomplete", .missing ["outfits"]⟩ :=
  (((verifyDatabaseHealth_cases
      ⟨.ok true,
       .ok ["users", "wardrobe_items", "inspirations",
            "weather_preferences", "mood_preferences", "session"],
       .ok ⟨1, 1, 0⟩⟩
      ["users", "wardrobe_items", "inspirations",
       "weather_preferences", "mood_preferences", "session"]
      ⟨1, 1, 0⟩).2.1 rfl rfl (by decide)).1).trans (by decide)

/-- Claim C6: verifyDatabaseHealth is total and never propagates an
exception: it always yields some HealthReport, and whenever the body of
its try block raises (the connectivity test, the catalog query or the
pool snapshot throwing), the result is an unhealthy report with the
health-check-failed message carrying the underlying error text. -/
theorem verifyDatabaseHealth_never_throws (env : DbEnv) (e : String) :
    (∃ r : HealthReport, verifyDatabaseHealth env = r) ∧
    (verifyDatabaseHealthAux env = .error e →
       verifyDatabaseHealth env =
         ⟨false, "Database health check failed", .errorDetail e⟩) ∧
    (env.testConnection = .error e →
       verifyDatabaseHealth env =
         ⟨false, "Database health check failed", .errorDetail e⟩) ∧
    (env.testConnection = .ok true → env.catalogTables = .error e →
       verifyDatabaseHealth env =
         ⟨false, "Database health check failed", .errorDetail e⟩) := by
  refine ⟨⟨verifyDatabaseHealth env, rfl⟩, ?_, ?_, ?_⟩
  · intro h
    simp [verifyDatabaseHealth, h]
  · intro h
    simp [verifyDatabaseHealth, verifyDatabaseHealthAux, h]
  · intro h1 h2
    simp [verifyDatabaseHealth, verifyDatabaseHealthAux, h1, h2]

/-- Claim C6 witness: a connectivity test that raises is converted into
the unhealthy health-check-failed report carrying the error text. -/
theorem verifyDatabaseHealth_never_throws_witness :
    verifyDatabaseHealth ⟨.error "boom", .ok [], .ok ⟨0, 0, 0⟩⟩ =
      ⟨false, "Database health check failed", .errorDetail "boom"⟩ :=
  (verifyDatabaseHealth_never_throws
    ⟨.error "boom", .ok [], .ok ⟨0, 0, 0⟩⟩ "boom").2.2.1 rfl

end AICloset
